import Mathlib

/-!
Shallow embedding of the streaming receipt subsystem of the repository:
the frame decoder, stream consumer and receipt generator of
`src/ambient_client/streaming.py`, and the receipt verifier of
`src/verify_receipt.py`.

Two external library functions appear in that code: the SHA-256 hex digest
(`hashlib.sha256(...).hexdigest()`) and the JSON text parser (`json.loads`).
They are modelled as explicit function parameters `H : String → String` and
`jparse : String → Option Jobj`.  Facts about them that a theorem needs
(injectivity of the digest on the relevant inputs, the hex shape of digest
output, the sentinel text not being valid JSON) appear as hypotheses and are
discharged on concrete instances in the witness theorems.

Machine details abstracted: times are integers (the millisecond values the
code derives from `time.monotonic()` differences), JSON objects are modelled
by the fields the code reads (`choices`, `delta`, `content`,
`reasoning_content`, `usage`, `prompt_tokens`, `completion_tokens`), with a
missing or null field represented by `none` (or by `0` for the token counts,
where the code treats a missing key and a zero value identically via
truthiness).
-/

namespace AmbientSpec

/-- Status literal of verify_receipt.py line 25. -/
def PASS : String := "PASS"

/-- Status literal of verify_receipt.py line 26. -/
def FAIL : String := "FAIL"

/-- Status literal of verify_receipt.py line 27. -/
def SKIP : String := "SKIP"

/-- One verification outcome (class Check, verify_receipt.py lines 30-34). -/
structure Check where
  name : String
  status : String
  detail : String := ""
deriving DecidableEq

/-- The verification report (class VerifyResult, verify_receipt.py lines 37-46). -/
structure VerifyResult where
  receipt_path : String := ""
  checks : List Check := []
  model : String := ""
  event_count : Nat := 0
  prompt_tokens : Int := 0
  completion_tokens : Int := 0
  content_chars : Nat := 0
  content_deltas : Nat := 0
deriving DecidableEq

/-- Derived property of the report (verify_receipt.py lines 48-50):
`all(c.status != FAIL for c in self.checks)`. -/
def VerifyResult.verified (r : VerifyResult) : Bool :=
  r.checks.all (fun c => c.status != FAIL)

/-- Usage block of a parsed frame: the two integer counters read by the code,
with `0` standing for a missing key (the code reads both through falsy or
default-0 access, so the two cases are indistinguishable to it). -/
structure Usage where
  prompt_tokens : Int := 0
  completion_tokens : Int := 0
deriving DecidableEq

/-- Delta object of one choice: optional primary content string and optional
secondary (reasoning) content string; `none` models a missing or null key. -/
structure Delta where
  content : Option String := none
  reasoning_content : Option String := none
deriving DecidableEq

/-- One element of the choices list; `choice.get("delta") or {}` makes the
delta optional. -/
structure Choice where
  delta : Option Delta := none
deriving DecidableEq

/-- A parsed JSON frame, restricted to the fields the code reads:
`obj.get("choices", [])` and `obj.get("usage") or {}`. -/
structure Jobj where
  choices : List Choice := []
  usage : Option Usage := none
deriving DecidableEq

/-- Content accumulation over the choices list: the `content` side of the loop
in _extract_content_parts (streaming.py lines 114-120); each choice appends
`delta.get("content") or ""`. -/
def extractContent : List Choice → String
  | [] => ""
  | c :: rest => (c.delta.getD {}).content.getD "" ++ extractContent rest

/-- Reasoning accumulation over the choices list: the `reasoning_content` side
of the same loop. -/
def extractReasoning : List Choice → String
  | [] => ""
  | c :: rest => (c.delta.getD {}).reasoning_content.getD "" ++ extractReasoning rest

/-- Model of _extract_content_parts (streaming.py lines 114-120). -/
def extract_content_parts (obj : Jobj) : String × String :=
  (extractContent obj.choices, extractReasoning obj.choices)

/-- Python `str.strip()`: drop leading and trailing whitespace.  Implemented
structurally over the character list so that it evaluates inside the kernel. -/
def pyStrip (s : String) : String :=
  ⟨((s.data.dropWhile Char.isWhitespace).reverse.dropWhile Char.isWhitespace).reverse⟩

/-- Python slicing `s[:n]` (by characters). -/
def pyTake (s : String) (n : Nat) : String := ⟨s.data.take n⟩

/-- Python slicing `s[n:]` (by characters). -/
def pyDrop (s : String) (n : Nat) : String := ⟨s.data.drop n⟩

/-- Python `s.startswith(pre)`. -/
def pyStartsWith (s pre : String) : Bool := pre.data.isPrefixOf s.data

/-- Python `s.replace(a, b)` for a one-character pattern and a one-character
replacement, the only form the source uses (streaming.py line 155). -/
def charReplace (s : String) (a b : Char) : String :=
  ⟨s.data.map (fun c => if c = a then b else c)⟩

/-- The terminal sentinel payload (streaming.py line 67, verify_receipt.py line 98). -/
def DONE : String := "[DONE]"

/-- Model of _iter_sse_data (streaming.py lines 102-111): strip each line,
keep those starting with the `data:` marker, drop the marker and strip the
remainder to get the payload.  Byte decoding is abstracted: lines arrive as
text (the code decodes permissively and never aborts on bad bytes). -/
def sseData (lines : List String) : List String :=
  lines.filterMap (fun l =>
    let t := pyStrip l
    if pyStartsWith t "data:" then some (pyStrip (pyDrop t 5)) else none)

/-- Frames actually consumed by the stream loop: every decoded payload up to
and including the first one whose stripped text is the sentinel; the loop of
stream_chat appends the frame to the raw log (line 65) before breaking on the
sentinel (lines 67-68), so the sentinel frame itself is kept. -/
def takeThroughDone : List String → List String
  | [] => []
  | e :: rest => if pyStrip e = DONE then [e] else e :: takeThroughDone rest

/-- Newline join of the raw frames, the `"\n".join(raw_events)` of
streaming.py line 152 and verify_receipt.py line 70. -/
def joinNl : List String → String
  | [] => ""
  | [s] => s
  | s :: t :: rest => s ++ "\n" ++ joinNl (t :: rest)

/-- The receipt artifact written by _write_receipt (streaming.py lines 158-167). -/
structure Receipt where
  model : String
  timestamp : Int
  events_hash : String
  payload_hash : String
  event_count : Nat
  raw_events : List String
deriving DecidableEq

/-- Path-unsafe character replacement for the filename
(streaming.py line 155). -/
def safeModel (m : String) : String := charReplace (charReplace m '/' '_') ':' '_'

/-- Receipt filename (streaming.py lines 153-156): timestamp, sanitized model
id, first 16 hex digits of the events hash. -/
def write_receipt_filename (H : String → String) (model : String) (ts : Int)
    (raw_events : List String) : String :=
  toString ts ++ "_" ++ safeModel model ++ "_" ++ pyTake (H (joinNl raw_events)) 16 ++ ".json"

/-- Path returned by _write_receipt (streaming.py lines 157, 169). -/
def write_receipt_path (H : String → String) (receipt_dir model : String) (ts : Int)
    (raw_events : List String) : String :=
  receipt_dir ++ "/" ++ write_receipt_filename H model ts raw_events

/-- The receipt structure built by _write_receipt (streaming.py lines 145-168).
`payloadCanon` stands for `json.dumps(payload, sort_keys=True)`, the canonical
serialization of the request body; `H` stands for the sha256 hex digest. -/
def write_receipt (H : String → String) (model payloadCanon : String) (ts : Int)
    (raw_events : List String) : Receipt :=
  { model := model
    timestamp := ts
    events_hash := H (joinNl raw_events)
    payload_hash := H payloadCanon
    event_count := raw_events.length
    raw_events := raw_events }

/-- The loaded receipt dictionary as the verifier reads it
(verify_receipt.py lines 61-69, 81): string fields are read with default `""`
and a missing field is indistinguishable from an empty one (`if not stored`),
so `""` models absence; `raw_events` is read with default `[]`. -/
structure ReceiptData where
  model : String := "unknown"
  events_hash : String := ""
  payload_hash : String := ""
  raw_events : List String := []
deriving DecidableEq

/-- Reading a written receipt back as verifier input: the generator stores
exactly these fields (streaming.py lines 158-167). -/
def Receipt.toData (r : Receipt) : ReceiptData :=
  { model := r.model
    events_hash := r.events_hash
    payload_hash := r.payload_hash
    raw_events := r.raw_events }

/-- Hex alphabet membership test of verify_receipt.py line 87. -/
def isHexChar (c : Char) : Bool := "0123456789abcdef".toList.contains c

/-- Shape of a well-formed sha256 hex digest (verify_receipt.py line 87):
64 characters, all lowercase hex. -/
def isHex64 (s : String) : Bool := s.length == 64 && s.toList.all isHexChar

/-- Check 1, events_hash (verify_receipt.py lines 68-78). -/
def eventsHashCheck (H : String → String) (d : ReceiptData) : Check :=
  if d.events_hash = "" then
    { name := "events_hash", status := SKIP, detail := "field missing in receipt" }
  else if H (joinNl d.raw_events) = d.events_hash then
    { name := "events_hash", status := PASS
      detail := "sha256 matches (" ++ pyTake d.events_hash 16 ++ ")" }
  else
    { name := "events_hash", status := FAIL
      detail := "MISMATCH - expected " ++ pyTake d.events_hash 16 ++
        " got " ++ pyTake (H (joinNl d.raw_events)) 16 }

/-- Check 2, payload_hash (verify_receipt.py lines 80-92): shape-only
validation of the stored digest. -/
def payloadHashCheck (d : ReceiptData) : Check :=
  if d.payload_hash = "" then
    { name := "payload_hash", status := SKIP, detail := "field missing in receipt" }
  else if isHex64 d.payload_hash then
    { name := "payload_hash", status := PASS
      detail := "present and well-formed (" ++ pyTake d.payload_hash 16 ++ ")" }
  else
    { name := "payload_hash", status := FAIL
      detail := "malformed hash value: " ++ d.payload_hash }

/-- The parsed-event list of verify_receipt.py lines 95-105: the sentinel and
every unparseable frame become `none`, each other frame its parsed object. -/
def parsedEvents (jparse : String → Option Jobj) (raw : List String) : List (Option Jobj) :=
  raw.map (fun ev => if pyStrip ev = DONE then none else jparse ev)

/-- Parse-error count of the verifier loop (verify_receipt.py lines 95-105):
frames that are not the sentinel and fail to parse. -/
def verifierParseErrors (jparse : String → Option Jobj) : List String → Nat
  | [] => 0
  | ev :: rest =>
    (if pyStrip ev = DONE then 0 else if (jparse ev).isNone then 1 else 0) +
      verifierParseErrors jparse rest

/-- Check 3, event parsing (verify_receipt.py lines 94-113). -/
def parseCheck (jparse : String → Option Jobj) (d : ReceiptData) : Check :=
  let perr := verifierParseErrors jparse d.raw_events
  let valid := d.raw_events.length - perr
  if perr = 0 then
    { name := "event parsing", status := PASS
      detail := toString valid ++ " / " ++ toString d.raw_events.length ++ " valid JSON" }
  else
    { name := "event parsing", status := FAIL
      detail := toString perr ++ " parse error(s) out of " ++
        toString d.raw_events.length ++ " events" }

/-- Primary content reconstructed by check 4 (verify_receipt.py lines 115-124):
over each successfully parsed frame, in order, append
`delta.get("content") or ""` for every choice.  The per-object content rule is
the same `extractContent` accumulation as the consumer side. -/
def verifierContent (jparse : String → Option Jobj) : List String → String
  | [] => ""
  | ev :: rest =>
    (if pyStrip ev = DONE then ""
     else match jparse ev with
       | none => ""
       | some o => extractContent o.choices) ++ verifierContent jparse rest

/-- Count of truthy content deltas (verify_receipt.py line 123) inside one
parsed object. -/
def deltaCount : List Choice → Nat
  | [] => 0
  | c :: rest => (if (c.delta.getD {}).content.getD "" ≠ "" then 1 else 0) + deltaCount rest

/-- Total content-delta count over the raw frame list
(verify_receipt.py lines 117-123). -/
def verifierDeltaCount (jparse : String → Option Jobj) : List String → Nat
  | [] => 0
  | ev :: rest =>
    (if pyStrip ev = DONE then 0
     else match jparse ev with
       | none => 0
       | some o => deltaCount o.choices) + verifierDeltaCount jparse rest

/-- Check 4, content reconstruction (verify_receipt.py lines 115-130). -/
def contentCheck (jparse : String → Option Jobj) (d : ReceiptData) : Check :=
  let content := verifierContent jparse d.raw_events
  if content.length > 0 then
    { name := "content", status := PASS
      detail := toString (verifierDeltaCount jparse d.raw_events) ++ " deltas, " ++
        toString content.length ++ " chars reconstructed" }
  else
    { name := "content", status := FAIL, detail := "no content tokens found in events" }

/-- Reverse scan of check 5 (verify_receipt.py lines 133-142): walk the parsed
events from the end, stop at the first one whose usage block has a non-zero
prompt or completion count, and take both values from it; `(0, 0)` when none
is found (the default-initialized report fields). -/
def reverseUsageScan : List (Option Jobj) → Int × Int
  | [] => (0, 0)
  | none :: rest => reverseUsageScan rest
  | some o :: rest =>
    let u := o.usage.getD {}
    if u.prompt_tokens ≠ 0 ∨ u.completion_tokens ≠ 0 then
      (u.prompt_tokens, u.completion_tokens)
    else reverseUsageScan rest

/-- Token counts the verifier reports (verify_receipt.py lines 133-142). -/
def verifierUsage (jparse : String → Option Jobj) (raw : List String) : Int × Int :=
  reverseUsageScan (parsedEvents jparse raw).reverse

/-- Check 5, usage tokens (verify_receipt.py lines 132-149). -/
def usageCheck (jparse : String → Option Jobj) (d : ReceiptData) : Check :=
  let u := verifierUsage jparse d.raw_events
  if u.1 > 0 ∨ u.2 > 0 then
    { name := "usage", status := PASS
      detail := toString u.1 ++ " prompt + " ++ toString u.2 ++ " completion tokens" }
  else
    { name := "usage", status := SKIP
      detail := "no usage block found (API may not return it in stream)" }

/-- Model of verify_receipt (verify_receipt.py lines 61-151): the five checks
in their fixed order plus the summary fields.  The inline loops of the source
are factored into the named helper functions above, each computing exactly
what the corresponding source loop computes. -/
def verify_receipt (H : String → String) (jparse : String → Option Jobj)
    (d : ReceiptData) (receipt_path : String) : VerifyResult :=
  let u := verifierUsage jparse d.raw_events
  { receipt_path := receipt_path
    model := d.model
    event_count := d.raw_events.length
    prompt_tokens := u.1
    completion_tokens := u.2
    content_chars := (verifierContent jparse d.raw_events).length
    content_deltas := verifierDeltaCount jparse d.raw_events
    checks := [eventsHashCheck H d, payloadHashCheck d, parseCheck jparse d,
               contentCheck jparse d, usageCheck jparse d] }

/-- Statuses of the checks in report order: position 0 is events_hash,
1 is payload_hash, 2 is event parsing, 3 is content, 4 is usage. -/
def checkStatuses (r : VerifyResult) : List String := r.checks.map (fun c => c.status)

/-- Number of FAIL checks in a report. -/
def countFail (r : VerifyResult) : Nat := r.checks.countP (fun c => c.status == FAIL)

/-- The synthetic injected content frame of the tamper simulation
(verify_receipt.py lines 292-294), as serialized by `json.dumps` with its
default separators and the source dictionary order. -/
def fake_event : String :=
  "\x7b\"choices\": [\x7b\"delta\": \x7b\"content\": \" [INJECTED_TOKEN]\"\x7d, \"finish_reason\": null\x7d]\x7d"

/-- Python `list.insert(i, a)`: insertion before position `i`
(clamped to the list length, as in Python). -/
def insertAt (l : List String) (i : Nat) (a : String) : List String :=
  l.take i ++ a :: l.drop i

/-- The tamper simulation transformation (verify_receipt.py lines 288-297):
copy the receipt and insert the fabricated frame at the midpoint of the
raw-event list. -/
def tamper (d : ReceiptData) : ReceiptData :=
  { d with raw_events := insertAt d.raw_events (d.raw_events.length / 2) fake_event }

/-- The session accumulator returned by stream_chat
(class StreamResult, streaming.py lines 11-22). -/
structure StreamResult where
  text : String := ""
  reasoning : String := ""
  ttfb_ms : Option Int := none
  ttc_ms : Option Int := none
  prompt_tokens : Int := 0
  completion_tokens : Int := 0
  stall_count : Nat := 0
  parse_errors : Nat := 0
  error : Option String := none
  receipt_path : Option String := none
deriving DecidableEq

/-- Loop state of the consumer: the mutable result, the raw-event log and
`last_chunk_time` (streaming.py lines 39, 46-48). -/
structure LoopSt where
  res : StreamResult := {}
  raw : List String := []
  last_chunk_time : Int
deriving DecidableEq

/-- What the transport layer delivers to one call of stream_chat: the decoded
frame payloads with their arrival times, an optional transport failure
(`requests.RequestException`) raised after those frames, the monotonic start
and end times, and the wall-clock timestamp used when a receipt is written. -/
structure StreamInput where
  events : List (Int × String)
  midExn : Option String := none
  tStart : Int := 0
  tEnd : Int := 0
  ts : Int := 0
deriving DecidableEq

/-- Timing part of one loop iteration (streaming.py lines 56-63): stall
detection against the previous chunk time (only once the first byte has been
seen), then first-byte latency if unset. -/
def timingUpdate (stall_threshold_ms tStart : Int) (st : LoopSt) (now : Int) : StreamResult :=
  let gap_ms := (now - st.last_chunk_time) * 1000
  let r := st.res
  let r := if gap_ms > stall_threshold_ms ∧ r.ttfb_ms.isSome then
    { r with stall_count := r.stall_count + 1 } else r
  if r.ttfb_ms.isNone then { r with ttfb_ms := some ((now - tStart) * 1000) } else r

/-- Content part of one loop iteration for a non-sentinel frame
(streaming.py lines 70-87): parse failure counts and skips; parse success
appends content and reasoning and lets each non-zero usage counter win. -/
def frameUpdate (jparse : String → Option Jobj) (r : StreamResult) (ev : String) : StreamResult :=
  match jparse ev with
  | none => { r with parse_errors := r.parse_errors + 1 }
  | some obj =>
    let cr := extract_content_parts obj
    let r := { r with text := r.text ++ cr.1, reasoning := r.reasoning ++ cr.2 }
    let u := obj.usage.getD {}
    let r := if u.prompt_tokens ≠ 0 then { r with prompt_tokens := u.prompt_tokens } else r
    if u.completion_tokens ≠ 0 then { r with completion_tokens := u.completion_tokens } else r

/-- The consumer loop (streaming.py lines 55-87): per frame, update timing,
append the raw payload, break on the sentinel, otherwise parse and
accumulate. -/
def runLoop (jparse : String → Option Jobj) (stall_threshold_ms tStart : Int) :
    LoopSt → List (Int × String) → LoopSt
  | st, [] => st
  | st, (now, ev) :: rest =>
    let r := timingUpdate stall_threshold_ms tStart st now
    let raw := st.raw ++ [ev]
    if pyStrip ev = DONE then { res := r, raw := raw, last_chunk_time := now }
    else
      runLoop jparse stall_threshold_ms tStart
        { res := frameUpdate jparse r ev, raw := raw, last_chunk_time := now } rest

/-- Whether some delivered frame triggers the sentinel break. -/
def hasDoneE (events : List (Int × String)) : Bool :=
  events.any (fun te => pyStrip te.2 == DONE)

/-- Observable outcome of one stream_chat call: the returned StreamResult,
the local raw-event log, and the receipt written when saving was requested
and at least one frame arrived. -/
structure StreamOutcome where
  result : StreamResult
  raw_events : List String
  receipt : Option Receipt := none
deriving DecidableEq

/-- Model of stream_chat (streaming.py lines 25-97).  The HTTP layer is
abstracted into `input`: the frames it delivers (already decoded by
_iter_sse_data) and an optional transport failure after them.  The exception
is only raised when the loop exhausts the delivered frames without breaking
on the sentinel; in that case the error string is recorded (line 90).  Time
to completion is always computed (line 92), and a receipt is written only
when requested and the raw log is non-empty (lines 94-95). -/
def stream_chat (H : String → String) (jparse : String → Option Jobj)
    (model payloadCanon : String) (stall_threshold_ms : Int) (save_receipt : Bool)
    (receipt_dir : String) (input : StreamInput) : StreamOutcome :=
  let fin := runLoop jparse stall_threshold_ms input.tStart
    { last_chunk_time := input.tStart } input.events
  let r := if input.midExn.isSome && !(hasDoneE input.events) then
    { fin.res with error := input.midExn } else fin.res
  let r := { r with ttc_ms := some ((input.tEnd - input.tStart) * 1000) }
  if save_receipt && !fin.raw.isEmpty then
    { result := { r with
        receipt_path := some (write_receipt_path H receipt_dir model input.ts fin.raw) }
      raw_events := fin.raw
      receipt := some (write_receipt H model payloadCanon input.ts fin.raw) }
  else { result := r, raw_events := fin.raw, receipt := none }

/-- Frames of the delivered event list actually processed by the loop: up to
and including the first sentinel frame. -/
def procE : List (Int × String) → List (Int × String)
  | [] => []
  | (now, ev) :: rest =>
    if pyStrip ev = DONE then [(now, ev)] else (now, ev) :: procE rest

/-- The content-extraction rule of the stream consumer (streaming.py lines
70-78) replayed over a payload list: per payload, a parse failure contributes
nothing and parse success appends the extracted primary content. -/
def consumerAccumText (jparse : String → Option Jobj) : List String → String
  | [] => ""
  | e :: rest =>
    (match jparse e with
     | none => ""
     | some o => (extract_content_parts o).1) ++ consumerAccumText jparse rest

/-- Text accumulated by the loop body over processed payloads: identical to
`consumerAccumText` except that a sentinel payload is skipped without being
parsed (the loop breaks before reaching the parse). -/
def loopTextR (jparse : String → Option Jobj) : List String → String
  | [] => ""
  | e :: rest =>
    (if pyStrip e = DONE then ""
     else match jparse e with
       | none => ""
       | some o => (extract_content_parts o).1) ++ loopTextR jparse rest

/-- Usage observations the loop makes over a payload list: for every
non-sentinel payload that parses, the pair of counter values carried by its
usage block (zeros for a missing block). -/
def usageObs (jparse : String → Option Jobj) (payloads : List String) : List (Int × Int) :=
  payloads.filterMap (fun e =>
    if pyStrip e = DONE then none
    else (jparse e).map (fun o =>
      let u := o.usage.getD {}
      (u.prompt_tokens, u.completion_tokens)))

/-- Last non-zero value of a list of observations, starting from `a`. -/
def lastNZfrom (a : Int) : List Int → Int
  | [] => a
  | x :: rest => lastNZfrom (if x ≠ 0 then x else a) rest

/-- Last non-zero value of a list of observations, or `0` when none. -/
def lastNZ (obs : List Int) : Int := lastNZfrom 0 obs

/-- The token counts a caller observes on the returned session: the code
exposes plain integer fields (streaming.py lines 17-18), so the observation
always carries a value. -/
def observed_prompt_tokens (out : StreamOutcome) : Option Int :=
  some out.result.prompt_tokens

/-- Completion-side counterpart of `observed_prompt_tokens`. -/
def observed_completion_tokens (out : StreamOutcome) : Option Int :=
  some out.result.completion_tokens

/-- Follows the spec wording, for comparison with the code: a nullable
prompt-token counter that stays null until a usage block with a non-zero
prompt count arrives and then holds the last such non-zero value. -/
def specview_prompt_tokens (jparse : String → Option Jobj) (payloads : List String) :
    Option Int :=
  (usageObs jparse payloads).foldl (fun acc uv => if uv.1 ≠ 0 then some uv.1 else acc) none

/-- Follows the spec wording: nullable completion-token counter. -/
def specview_completion_tokens (jparse : String → Option Jobj) (payloads : List String) :
    Option Int :=
  (usageObs jparse payloads).foldl (fun acc uv => if uv.2 ≠ 0 then some uv.2 else acc) none

/-! Shared auxiliary lemmas. -/

lemma string_length_eq_zero_iff (s : String) : s.length = 0 ↔ s = "" := by
  cases s with
  | mk l =>
    simp [String.length, String.ext_iff]

lemma joinNl_length (l : List String) (h : l ≠ []) :
    (joinNl l).length = (l.map String.length).sum + (l.length - 1) := by
  match l with
  | [s] => simp [joinNl]
  | s :: t :: rest =>
    have ih := joinNl_length (t :: rest) (by simp)
    simp only [joinNl, String.length_append, List.map_cons, List.sum_cons,
      List.length_cons] at *
    have h1 : ("\n" : String).length = 1 := rfl
    omega

lemma insertAt_length (l : List String) (i : Nat) (a : String) :
    (insertAt l i a).length = l.length + 1 := by
  simp [insertAt]
  omega

lemma insertAt_sumLen (l : List String) (i : Nat) (a : String) :
    ((insertAt l i a).map String.length).sum = (l.map String.length).sum + a.length := by
  have key := List.sum_take_add_sum_drop (l.map String.length) i
  simp [insertAt, List.map_append, List.sum_append, List.map_take, List.map_drop]
  omega

lemma insertAt_ne_nil (l : List String) (i : Nat) (a : String) :
    insertAt l i a ≠ [] := by
  simp [insertAt]

lemma tamper_join_ne (l : List String) :
    joinNl (insertAt l (l.length / 2) fake_event) ≠ joinNl l := by
  match l with
  | [] =>
    show joinNl [fake_event] ≠ joinNl []
    simp [joinNl]
    decide
  | x :: xs =>
    intro heq
    have hlen := congrArg String.length heq
    rw [joinNl_length _ (insertAt_ne_nil _ _ _), joinNl_length _ (by simp)] at hlen
    rw [insertAt_length, insertAt_sumLen] at hlen
    have hfe : 0 < fake_event.length := by decide
    simp only [List.length_cons] at hlen
    omega

lemma sseData_append (l m : List String) :
    sseData (l ++ m) = sseData l ++ sseData m := by
  simp [sseData]

lemma takeThroughDone_append_of_done (l m : List String)
    (h : ∃ e ∈ l, pyStrip e = DONE) :
    takeThroughDone (l ++ m) = takeThroughDone l := by
  induction l with
  | nil => simp at h
  | cons e rest ih =>
    by_cases he : pyStrip e = DONE
    · simp [takeThroughDone, he]
    · have h2 : ∃ x ∈ rest, pyStrip x = DONE := by
        obtain ⟨x, hx, hxd⟩ := h
        rcases List.mem_cons.mp hx with rfl | hx
        · exact absurd hxd he
        · exact ⟨x, hx, hxd⟩
      simp [takeThroughDone, he, ih h2]

lemma takeThroughDone_ends_done (l : List String)
    (h : ∃ e ∈ l, pyStrip e = DONE) :
    ∃ pre d, takeThroughDone l = pre ++ [d] ∧ pyStrip d = DONE ∧
      ∀ e ∈ pre, pyStrip e ≠ DONE := by
  induction l with
  | nil => simp at h
  | cons e rest ih =>
    by_cases he : pyStrip e = DONE
    · exact ⟨[], e, by simp [takeThroughDone, he], he, by simp⟩
    · have h2 : ∃ x ∈ rest, pyStrip x = DONE := by
        obtain ⟨x, hx, hxd⟩ := h
        rcases List.mem_cons.mp hx with rfl | hx
        · exact absurd hxd he
        · exact ⟨x, hx, hxd⟩
      obtain ⟨pre, d, h1, h3, h4⟩ := ih h2
      refine ⟨e :: pre, d, ?_, h3, ?_⟩
      · simp [takeThroughDone, he, h1]
      · intro x hx
        rcases List.mem_cons.mp hx with rfl | hx
        · exact he
        · exact h4 x hx

lemma timingUpdate_text (thr t0 : Int) (st : LoopSt) (now : Int) :
    (timingUpdate thr t0 st now).text = st.res.text := by
  unfold timingUpdate
  dsimp only
  split <;> split <;> rfl

lemma timingUpdate_error (thr t0 : Int) (st : LoopSt) (now : Int) :
    (timingUpdate thr t0 st now).error = st.res.error := by
  unfold timingUpdate
  dsimp only
  split <;> split <;> rfl

lemma timingUpdate_parse_errors (thr t0 : Int) (st : LoopSt) (now : Int) :
    (timingUpdate thr t0 st now).parse_errors = st.res.parse_errors := by
  unfold timingUpdate
  dsimp only
  split <;> split <;> rfl

lemma timingUpdate_prompt_tokens (thr t0 : Int) (st : LoopSt) (now : Int) :
    (timingUpdate thr t0 st now).prompt_tokens = st.res.prompt_tokens := by
  unfold timingUpdate
  dsimp only
  split <;> split <;> rfl

lemma timingUpdate_completion_tokens (thr t0 : Int) (st : LoopSt) (now : Int) :
    (timingUpdate thr t0 st now).completion_tokens = st.res.completion_tokens := by
  unfold timingUpdate
  dsimp only
  split <;> split <;> rfl

lemma frameUpdate_error (jp : String → Option Jobj) (r : StreamResult) (ev : String) :
    (frameUpdate jp r ev).error = r.error := by
  unfold frameUpdate
  cases jp ev
  · rfl
  · dsimp only
    split <;> split <;> rfl

lemma frameUpdate_parse_errors (jp : String → Option Jobj) (r : StreamResult) (ev : String) :
    (frameUpdate jp r ev).parse_errors =
      r.parse_errors + (if (jp ev).isNone then 1 else 0) := by
  unfold frameUpdate
  cases jp ev
  · rfl
  · dsimp only [Option.isNone_some]
    split <;> split <;> rfl

lemma frameUpdate_text (jp : String → Option Jobj) (r : StreamResult) (ev : String) :
    (frameUpdate jp r ev).text =
      r.text ++ (match jp ev with
        | none => ""
        | some o => (extract_content_parts o).1) := by
  unfold frameUpdate
  cases jp ev
  · exact (String.append_empty r.text).symm
  · dsimp only
    split <;> split <;> rfl

lemma frameUpdate_prompt_tokens (jp : String → Option Jobj) (r : StreamResult) (ev : String) :
    (frameUpdate jp r ev).prompt_tokens =
      (match jp ev with
        | none => r.prompt_tokens
        | some o =>
          if (o.usage.getD {}).prompt_tokens ≠ 0 then (o.usage.getD {}).prompt_tokens
          else r.prompt_tokens) := by
  unfold frameUpdate
  cases jp ev
  · rfl
  · dsimp only
    split <;> split <;> rfl

lemma frameUpdate_completion_tokens (jp : String → Option Jobj) (r : StreamResult) (ev : String) :
    (frameUpdate jp r ev).completion_tokens =
      (match jp ev with
        | none => r.completion_tokens
        | some o =>
          if (o.usage.getD {}).completion_tokens ≠ 0 then (o.usage.getD {}).completion_tokens
          else r.completion_tokens) := by
  unfold frameUpdate
  cases jp ev
  · rfl
  · dsimp only
    split <;> split <;> rfl

lemma procE_map_snd (events : List (Int × String)) :
    (procE events).map Prod.snd = takeThroughDone (events.map Prod.snd) := by
  induction events with
  | nil => rfl
  | cons te rest ih =>
    obtain ⟨now, ev⟩ := te
    by_cases h : pyStrip ev = DONE
    · simp [procE, takeThroughDone, h]
    · simp [procE, takeThroughDone, h, ih]

lemma procE_eq_self (events : List (Int × String)) (h : hasDoneE events = false) :
    procE events = events := by
  induction events with
  | nil => rfl
  | cons te rest ih =>
    obtain ⟨now, ev⟩ := te
    simp only [hasDoneE, List.any_cons, Bool.or_eq_false_iff, beq_eq_false_iff_ne,
      ne_eq] at h
    simp [procE, h.1, ih (by simpa [hasDoneE] using h.2)]

lemma procE_append_nodone (l m : List (Int × String)) (h : hasDoneE l = false) :
    procE (l ++ m) = l ++ procE m := by
  induction l with
  | nil => rfl
  | cons te rest ih =>
    obtain ⟨now, ev⟩ := te
    simp only [hasDoneE, List.any_cons, Bool.or_eq_false_iff, beq_eq_false_iff_ne,
      ne_eq] at h
    simp [procE, h.1, ih (by simpa [hasDoneE] using h.2)]

lemma procE_ne_nil (events : List (Int × String)) (h : events ≠ []) :
    procE events ≠ [] := by
  match events with
  | (now, ev) :: rest =>
    by_cases hd : pyStrip ev = DONE <;> simp [procE, hd]

lemma runLoop_raw (jp : String → Option Jobj) (thr t0 : Int) (st : LoopSt)
    (events : List (Int × String)) :
    (runLoop jp thr t0 st events).raw = st.raw ++ (procE events).map Prod.snd := by
  induction events generalizing st with
  | nil => simp [runLoop, procE]
  | cons te rest ih =>
    obtain ⟨now, ev⟩ := te
    by_cases h : pyStrip ev = DONE
    · simp [runLoop, procE, h]
    · simp [runLoop, procE, h, ih]

lemma runLoop_error (jp : String → Option Jobj) (thr t0 : Int) (st : LoopSt)
    (events : List (Int × String)) :
    (runLoop jp thr t0 st events).res.error = st.res.error := by
  induction events generalizing st with
  | nil => rfl
  | cons te rest ih =>
    obtain ⟨now, ev⟩ := te
    by_cases h : pyStrip ev = DONE
    · simp [runLoop, h, timingUpdate_error]
    · simp only [runLoop, h, if_false, ih]
      simp [frameUpdate_error, timingUpdate_error]

lemma runLoop_ttc (jp : String → Option Jobj) (thr t0 : Int) (st : LoopSt)
    (events : List (Int × String)) :
    (runLoop jp thr t0 st events).res.ttc_ms = st.res.ttc_ms := by
  induction events generalizing st with
  | nil => rfl
  | cons te rest ih =>
    obtain ⟨now, ev⟩ := te
    by_cases h : pyStrip ev = DONE
    · simp only [runLoop, h, if_true]
      unfold timingUpdate
      dsimp only
      split <;> split <;> rfl
    · simp only [runLoop, h, if_false, ih]
      show (frameUpdate jp (timingUpdate thr t0 st now) ev).ttc_ms = st.res.ttc_ms
      have h1 : ∀ r : StreamResult, ∀ e, (frameUpdate jp r e).ttc_ms = r.ttc_ms := by
        intro r e
        unfold frameUpdate
        cases jp e
        · rfl
        · dsimp only
          split <;> split <;> rfl
      rw [h1]
      unfold timingUpdate
      dsimp only
      split <;> split <;> rfl

lemma runLoop_parse_errors (jp : String → Option Jobj) (thr t0 : Int) (st : LoopSt)
    (events : List (Int × String)) :
    (runLoop jp thr t0 st events).res.parse_errors =
      st.res.parse_errors + verifierParseErrors jp ((procE events).map Prod.snd) := by
  induction events generalizing st with
  | nil => simp [runLoop, procE, verifierParseErrors]
  | cons te rest ih =>
    obtain ⟨now, ev⟩ := te
    by_cases h : pyStrip ev = DONE
    · simp [runLoop, procE, verifierParseErrors, h, timingUpdate_parse_errors]
    · simp only [runLoop, h, if_false, ih, procE, List.map_cons, verifierParseErrors]
      rw [frameUpdate_parse_errors, timingUpdate_parse_errors]
      simp [h]
      omega

lemma runLoop_text (jp : String → Option Jobj) (thr t0 : Int) (st : LoopSt)
    (events : List (Int × String)) :
    (runLoop jp thr t0 st events).res.text =
      st.res.text ++ loopTextR jp ((procE events).map Prod.snd) := by
  induction events generalizing st with
  | nil => simp [runLoop, procE, loopTextR]
  | cons te rest ih =>
    obtain ⟨now, ev⟩ := te
    by_cases h : pyStrip ev = DONE
    · simp [runLoop, procE, loopTextR, h, timingUpdate_text]
    · simp only [runLoop, h, if_false, ih, procE, List.map_cons, loopTextR]
      rw [frameUpdate_text, timingUpdate_text]
      cases jp ev <;> simp [String.append_assoc]

lemma runLoop_prompt_tokens (jp : String → Option Jobj) (thr t0 : Int) (st : LoopSt)
    (events : List (Int × String)) :
    (runLoop jp thr t0 st events).res.prompt_tokens =
      lastNZfrom st.res.prompt_tokens
        ((usageObs jp ((procE events).map Prod.snd)).map Prod.fst) := by
  induction events generalizing st with
  | nil => simp [runLoop, procE, usageObs, lastNZfrom]
  | cons te rest ih =>
    obtain ⟨now, ev⟩ := te
    by_cases h : pyStrip ev = DONE
    · simp [runLoop, procE, usageObs, lastNZfrom, h, timingUpdate_prompt_tokens]
    · simp only [runLoop, h, if_false, ih, procE, List.map_cons, usageObs,
        List.filterMap_cons]
      rw [frameUpdate_prompt_tokens, timingUpdate_prompt_tokens]
      cases jp ev with
      | none => simp [usageObs]
      | some o => simp [usageObs, lastNZfrom]

lemma runLoop_completion_tokens (jp : String → Option Jobj) (thr t0 : Int) (st : LoopSt)
    (events : List (Int × String)) :
    (runLoop jp thr t0 st events).res.completion_tokens =
      lastNZfrom st.res.completion_tokens
        ((usageObs jp ((procE events).map Prod.snd)).map Prod.snd) := by
  induction events generalizing st with
  | nil => simp [runLoop, procE, usageObs, lastNZfrom]
  | cons te rest ih =>
    obtain ⟨now, ev⟩ := te
    by_cases h : pyStrip ev = DONE
    · simp [runLoop, procE, usageObs, lastNZfrom, h, timingUpdate_completion_tokens]
    · simp only [runLoop, h, if_false, ih, procE, List.map_cons, usageObs,
        List.filterMap_cons]
      rw [frameUpdate_completion_tokens, timingUpdate_completion_tokens]
      cases jp ev with
      | none => simp [usageObs]
      | some o => simp [usageObs, lastNZfrom]

lemma stream_chat_raw (H : String → String) (jp : String → Option Jobj)
    (model pc : String) (thr : Int) (sv : Bool) (dir : String) (input : StreamInput) :
    (stream_chat H jp model pc thr sv dir input).raw_events =
      (procE input.events).map Prod.snd := by
  unfold stream_chat
  dsimp only
  split <;> simp [runLoop_raw]

lemma stream_chat_error (H : String → String) (jp : String → Option Jobj)
    (model pc : String) (thr : Int) (sv : Bool) (dir : String) (input : StreamInput) :
    (stream_chat H jp model pc thr sv dir input).result.error =
      (if input.midExn.isSome && !(hasDoneE input.events) then input.midExn else none) := by
  unfold stream_chat
  dsimp only
  split <;> split <;> simp_all [runLoop_error]

lemma stream_chat_ttc (H : String → String) (jp : String → Option Jobj)
    (model pc : String) (thr : Int) (sv : Bool) (dir : String) (input : StreamInput) :
    (stream_chat H jp model pc thr sv dir input).result.ttc_ms =
      some ((input.tEnd - input.tStart) * 1000) := by
  unfold stream_chat
  dsimp only
  split <;> rfl

lemma stream_chat_text (H : String → String) (jp : String → Option Jobj)
    (model pc : String) (thr : Int) (sv : Bool) (dir : String) (input : StreamInput) :
    (stream_chat H jp model pc thr sv dir input).result.text =
      loopTextR jp ((procE input.events).map Prod.snd) := by
  unfold stream_chat
  dsimp only
  split <;> split <;> simp_all [runLoop_text]

lemma stream_chat_parse_errors (H : String → String) (jp : String → Option Jobj)
    (model pc : String) (thr : Int) (sv : Bool) (dir : String) (input : StreamInput) :
    (stream_chat H jp model pc thr sv dir input).result.parse_errors =
      verifierParseErrors jp ((procE input.events).map Prod.snd) := by
  unfold stream_chat
  dsimp only
  split <;> split <;> simp_all [runLoop_parse_errors]

lemma stream_chat_prompt_tokens (H : String → String) (jp : String → Option Jobj)
    (model pc : String) (thr : Int) (sv : Bool) (dir : String) (input : StreamInput) :
    (stream_chat H jp model pc thr sv dir input).result.prompt_tokens =
      lastNZ ((usageObs jp ((procE input.events).map Prod.snd)).map Prod.fst) := by
  unfold stream_chat lastNZ
  dsimp only
  split <;> split <;> simp_all [runLoop_prompt_tokens]

lemma stream_chat_completion_tokens (H : String → String) (jp : String → Option Jobj)
    (model pc : String) (thr : Int) (sv : Bool) (dir : String) (input : StreamInput) :
    (stream_chat H jp model pc thr sv dir input).result.completion_tokens =
      lastNZ ((usageObs jp ((procE input.events).map Prod.snd)).map Prod.snd) := by
  unfold stream_chat lastNZ
  dsimp only
  split <;> split <;> simp_all [runLoop_completion_tokens]

lemma runLoop_receipt_path (jp : String → Option Jobj) (thr t0 : Int) (st : LoopSt)
    (events : List (Int × String)) :
    (runLoop jp thr t0 st events).res.receipt_path = st.res.receipt_path := by
  induction events generalizing st with
  | nil => rfl
  | cons te rest ih =>
    obtain ⟨now, ev⟩ := te
    by_cases h : pyStrip ev = DONE
    · simp only [runLoop, h, if_true]
      unfold timingUpdate
      dsimp only
      split <;> split <;> rfl
    · simp only [runLoop, h, if_false, ih]
      show (frameUpdate jp (timingUpdate thr t0 st now) ev).receipt_path = st.res.receipt_path
      have h1 : ∀ r : StreamResult, ∀ e, (frameUpdate jp r e).receipt_path = r.receipt_path := by
        intro r e
        unfold frameUpdate
        cases jp e
        · rfl
        · dsimp only
          split <;> split <;> rfl
      rw [h1]
      unfold timingUpdate
      dsimp only
      split <;> split <;> rfl

lemma stream_chat_receipt_path (H : String → String) (jp : String → Option Jobj)
    (model pc : String) (thr : Int) (sv : Bool) (dir : String) (input : StreamInput) :
    (stream_chat H jp model pc thr sv dir input).result.receipt_path =
      (if sv && !((procE input.events).map Prod.snd).isEmpty then
        some (write_receipt_path H dir model input.ts ((procE input.events).map Prod.snd))
      else none) := by
  unfold stream_chat
  dsimp only
  rw [runLoop_raw]
  simp only [List.nil_append]
  split <;> split <;> simp_all [runLoop_raw, runLoop_receipt_path]

lemma stream_chat_receipt (H : String → String) (jp : String → Option Jobj)
    (model pc : String) (thr : Int) (sv : Bool) (dir : String) (input : StreamInput) :
    (stream_chat H jp model pc thr sv dir input).receipt =
      (if sv && !((procE input.events).map Prod.snd).isEmpty then
        some (write_receipt H model pc input.ts ((procE input.events).map Prod.snd))
      else none) := by
  unfold stream_chat
  dsimp only
  rw [runLoop_raw]
  simp only [List.nil_append]
  split <;> simp_all [runLoop_raw]

lemma loopTextR_eq_consumerAccumText (jp : String → Option Jobj)
    (hdone : ∀ s, pyStrip s = DONE → jp s = none) (l : List String) :
    loopTextR jp l = consumerAccumText jp l := by
  induction l with
  | nil => rfl
  | cons e rest ih =>
    by_cases h : pyStrip e = DONE
    · simp [loopTextR, consumerAccumText, h, hdone e h, ih]
    · simp [loopTextR, consumerAccumText, h, ih]

lemma verifierContent_eq_consumerAccumText (jp : String → Option Jobj)
    (hdone : ∀ s, pyStrip s = DONE → jp s = none) (l : List String) :
    verifierContent jp l = consumerAccumText jp l := by
  induction l with
  | nil => rfl
  | cons e rest ih =>
    by_cases h : pyStrip e = DONE
    · simp [verifierContent, consumerAccumText, h, hdone e h, ih]
    · simp only [verifierContent, consumerAccumText, h, if_false, ih]
      cases jp e <;> rfl

lemma verifierParseErrors_append (jp : String → Option Jobj) (l m : List String) :
    verifierParseErrors jp (l ++ m) =
      verifierParseErrors jp l + verifierParseErrors jp m := by
  induction l with
  | nil => simp [verifierParseErrors]
  | cons e rest ih =>
    show verifierParseErrors jp (e :: (rest ++ m)) = _
    simp only [verifierParseErrors, ih]
    omega

lemma loopTextR_append (jp : String → Option Jobj) (l m : List String) :
    loopTextR jp (l ++ m) = loopTextR jp l ++ loopTextR jp m := by
  induction l with
  | nil => simp [loopTextR]
  | cons e rest ih =>
    simp [loopTextR, ih, String.append_assoc]

lemma verifierParseErrors_zero (jp : String → Option Jobj) (l : List String)
    (h : ∀ e ∈ l, pyStrip e = DONE ∨ (jp e).isSome = true) :
    verifierParseErrors jp l = 0 := by
  induction l with
  | nil => rfl
  | cons e rest ih =>
    have he := h e (by simp)
    have hrest := ih (fun x hx => h x (by simp [hx]))
    rcases he with he | he
    · simp [verifierParseErrors, he, hrest]
    · by_cases hd : pyStrip e = DONE
      · simp [verifierParseErrors, hd, hrest]
      · simp [verifierParseErrors, hd, hrest, Option.isNone_iff_eq_none]
        intro hn
        rw [hn] at he
        simp at he

lemma lastNZfrom_all_zero (l : List Int) (a : Int) (h : ∀ x ∈ l, x = 0) :
    lastNZfrom a l = a := by
  induction l generalizing a with
  | nil => rfl
  | cons x rest ih =>
    have hx := h x (by simp)
    simp [lastNZfrom, hx, ih _ (fun y hy => h y (by simp [hy]))]

/-! Concrete instances used by witnesses and counterexamples. -/

/-- Identity digest: an injective instance of the digest parameter. -/
def idS : String → String := fun s => s

/-- Constant well-formed digest: a 64-character lowercase-hex instance of the
digest parameter. -/
def H64 : String → String :=
  fun _ => "aaaaaaaaaaaaaaaaaaaaaaaaaaaaaaaaaaaaaaaaaaaaaaaaaaaaaaaaaaaaaaaa"

/-- Parser instance on which no input is valid JSON. -/
def jpNone : String → Option Jobj := fun _ => none

/-- Parser instance on which the single payload `c` is a one-choice content
frame carrying `Hi` and nothing else parses. -/
def jpC : String → Option Jobj := fun s =>
  if s = "c" then some { choices := [{ delta := some { content := some "Hi" } }] } else none

/-- Parser instance realizing the usage scenario of the spec: payloads `u1`,
`u2`, `u3` carry usage counts (5,0), (0,0) and (12,7). -/
def jpUsage : String → Option Jobj := fun s =>
  if s = "u1" then some { usage := some { prompt_tokens := 5 } }
  else if s = "u2" then some { usage := some {} }
  else if s = "u3" then some { usage := some { prompt_tokens := 12, completion_tokens := 7 } }
  else none

/-- Parser instance on which payload `z` carries an all-zero usage block. -/
def jpU0 : String → Option Jobj := fun s =>
  if s = "z" then some { usage := some {} } else none

lemma jpC_done_none : ∀ s, pyStrip s = DONE → jpC s = none := by
  intro s h
  unfold jpC
  rw [if_neg]
  intro hc
  subst hc
  exact absurd h (by decide)

/-! Claim theorems. -/

/-- C3: for every input line sequence containing a data line whose payload
equals the sentinel value, the frame decoder composed with the consumer loop
yields the frames up to and including the first sentinel frame — the sentinel
frame is last, nothing follows it, lines after it never change the consumed
sequence — and the raw-event log of stream_chat is exactly this cut of the
decoded payloads. -/
theorem c3_sentinel_is_terminal :
    ∀ lines : List String, DONE ∈ sseData lines →
      (∃ pre d, takeThroughDone (sseData lines) = pre ++ [d] ∧ pyStrip d = DONE ∧
        ∀ e ∈ pre, pyStrip e ≠ DONE) ∧
      (∀ extra : List String,
        takeThroughDone (sseData (lines ++ extra)) = takeThroughDone (sseData lines)) ∧
      (∀ (H : String → String) (jparse : String → Option Jobj) (model pc : String)
        (thr : Int) (sv : Bool) (dir : String) (input : StreamInput),
        (stream_chat H jparse model pc thr sv dir input).raw_events =
          takeThroughDone (input.events.map Prod.snd)) := by
  intro lines hmem
  have hex : ∃ e ∈ sseData lines, pyStrip e = DONE := ⟨DONE, hmem, by decide⟩
  refine ⟨takeThroughDone_ends_done _ hex, ?_, ?_⟩
  · intro extra
    rw [sseData_append, takeThroughDone_append_of_done _ _ hex]
  · intro H jparse model pc thr sv dir input
    rw [stream_chat_raw, procE_map_snd]

/-- Witness for C3 on the concrete line sequence
`data: hi`, `data: [DONE]`, `data: more`. -/
theorem c3_witness :
    DONE ∈ sseData ["data: hi", "data: [DONE]", "data: more"] ∧
    takeThroughDone (sseData (["data: hi", "data: [DONE]", "data: more"] ++ ["data: x"])) =
      takeThroughDone (sseData ["data: hi", "data: [DONE]", "data: more"]) :=
  ⟨by decide, (c3_sentinel_is_terminal _ (by decide)).2.1 ["data: x"]⟩

/-- C5: each session token counter equals the last non-zero value observed
for that counter over the usage blocks of the processed frames (a zero
observation never erases a prior non-zero value), and in particular the
usage sequence (5,0), (0,0), (12,7) yields final counts (12,7). -/
theorem c5_last_nonzero_token_counters :
    (∀ (H : String → String) (jparse : String → Option Jobj) (model pc : String)
        (thr : Int) (sv : Bool) (dir : String) (input : StreamInput),
      (stream_chat H jparse model pc thr sv dir input).result.prompt_tokens =
        lastNZ ((usageObs jparse ((procE input.events).map Prod.snd)).map Prod.fst) ∧
      (stream_chat H jparse model pc thr sv dir input).result.completion_tokens =
        lastNZ ((usageObs jparse ((procE input.events).map Prod.snd)).map Prod.snd)) ∧
    ((stream_chat idS jpUsage "m" "pc" 2000 false "d"
        { events := [(1, "u1"), (2, "u2"), (3, "u3")], midExn := none,
          tStart := 0, tEnd := 4, ts := 0 }).result.prompt_tokens = 12 ∧
      (stream_chat idS jpUsage "m" "pc" 2000 false "d"
        { events := [(1, "u1"), (2, "u2"), (3, "u3")], midExn := none,
          tStart := 0, tEnd := 4, ts := 0 }).result.completion_tokens = 7) :=
  ⟨fun H jparse model pc thr sv dir input =>
    ⟨stream_chat_prompt_tokens H jparse model pc thr sv dir input,
     stream_chat_completion_tokens H jparse model pc thr sv dir input⟩,
   by decide, by decide⟩

/-- C6: a report is verified exactly when no check has status FAIL; SKIP
checks do not block verification. -/
theorem c6_verified_iff_no_fail :
    ∀ r : VerifyResult,
      (r.verified = true ↔ ∀ c ∈ r.checks, c.status ≠ FAIL) ∧
      ((∃ c ∈ r.checks, c.status = SKIP) → (∀ c ∈ r.checks, c.status ≠ FAIL) →
        r.verified = true) := by
  intro r
  have main : r.verified = true ↔ ∀ c ∈ r.checks, c.status ≠ FAIL := by
    simp [VerifyResult.verified, List.all_eq_true, bne_iff_ne]
  exact ⟨main, fun _ h => main.mpr h⟩

/-- Witness for C6 on a one-check report whose only check is a SKIP. -/
theorem c6_witness :
    (∃ c ∈ ({ checks := [{ name := "usage", status := SKIP }] } : VerifyResult).checks,
      c.status = SKIP) ∧
    ({ checks := [{ name := "usage", status := SKIP }] } : VerifyResult).verified = true :=
  ⟨by decide,
   (c6_verified_iff_no_fail { checks := [{ name := "usage", status := SKIP }] }).2
     (by decide) (by decide)⟩

/-- C8: a session that receives zero frames and no transport error returns
null time-to-first-byte, empty text, a completion time computed from the
session bounds (non-negative when the clock is monotone), a null error, and
no receipt is written even though saving was requested. -/
theorem c8_empty_stream :
    ∀ (H : String → String) (jparse : String → Option Jobj) (model pc : String)
      (thr : Int) (dir : String) (input : StreamInput),
      input.events = [] → input.midExn = none →
      (stream_chat H jparse model pc thr true dir input).result.ttfb_ms = none ∧
      (stream_chat H jparse model pc thr true dir input).result.text = "" ∧
      (stream_chat H jparse model pc thr true dir input).result.ttc_ms =
        some ((input.tEnd - input.tStart) * 1000) ∧
      (input.tStart ≤ input.tEnd → 0 ≤ (input.tEnd - input.tStart) * 1000) ∧
      (stream_chat H jparse model pc thr true dir input).result.error = none ∧
      (stream_chat H jparse model pc thr true dir input).result.receipt_path = none ∧
      (stream_chat H jparse model pc thr true dir input).receipt = none := by
  intro H jparse model pc thr dir input h1 h2
  refine ⟨?_, ?_, stream_chat_ttc H jparse model pc thr true dir input,
    fun hle => mul_nonneg (sub_nonneg.mpr hle) (by norm_num), ?_, ?_, ?_⟩
  · obtain ⟨ev, mx, ta, tb, ts⟩ := input
    simp only at h1 h2
    subst h1 h2
    simp [stream_chat, runLoop, hasDoneE]
  · rw [stream_chat_text, h1]
    rfl
  · rw [stream_chat_error]
    simp [h2]
  · rw [stream_chat_receipt_path, h1]
    rfl
  · rw [stream_chat_receipt, h1]
    rfl

/-- Witness for C8 on a concrete empty-stream session. -/
theorem c8_witness :
    ({ events := [], midExn := none, tStart := 5, tEnd := 9, ts := 3 } : StreamInput).events
        = [] ∧
    (stream_chat idS jpNone "m" "pc" 2000 true "d"
      { events := [], midExn := none, tStart := 5, tEnd := 9, ts := 3 }).result.ttfb_ms
        = none ∧
    (stream_chat idS jpNone "m" "pc" 2000 true "d"
      { events := [], midExn := none, tStart := 5, tEnd := 9, ts := 3 }).result.receipt_path
        = none :=
  ⟨rfl,
   (c8_empty_stream idS jpNone "m" "pc" 2000 "d"
     { events := [], midExn := none, tStart := 5, tEnd := 9, ts := 3 } rfl rfl).1,
   (c8_empty_stream idS jpNone "m" "pc" 2000 "d"
     { events := [], midExn := none, tStart := 5, tEnd := 9, ts := 3 } rfl rfl).2.2.2.2.2.1⟩

/-- C7: per-frame parse failures never set the terminal error (first
conjunct); a bad frame inserted mid-stream bumps the parse-error counter by
exactly one while leaving the error, the accumulated text and the processing
of the surrounding frames unchanged (second conjunct); a transport failure
records its description as the session error, still computes time to
completion from session start, and keeps every frame received before the
failure in the raw-frame log (third conjunct). -/
theorem c7_error_taxonomy :
    (∀ (H : String → String) (jparse : String → Option Jobj) (model pc : String)
        (thr : Int) (sv : Bool) (dir : String) (input : StreamInput),
      input.midExn = none →
      (stream_chat H jparse model pc thr sv dir input).result.error = none) ∧
    (∀ (H : String → String) (jparse : String → Option Jobj) (model pc : String)
        (thr : Int) (sv : Bool) (dir : String) (tS tE ts t : Int) (mx : Option String)
        (es1 es2 : List (Int × String)) (b : String),
      hasDoneE es1 = false → pyStrip b ≠ DONE → jparse b = none →
      (stream_chat H jparse model pc thr sv dir
          ⟨es1 ++ (t, b) :: es2, mx, tS, tE, ts⟩).result.parse_errors =
        (stream_chat H jparse model pc thr sv dir
          ⟨es1 ++ es2, mx, tS, tE, ts⟩).result.parse_errors + 1 ∧
      (stream_chat H jparse model pc thr sv dir
          ⟨es1 ++ (t, b) :: es2, mx, tS, tE, ts⟩).result.error =
        (stream_chat H jparse model pc thr sv dir
          ⟨es1 ++ es2, mx, tS, tE, ts⟩).result.error ∧
      (stream_chat H jparse model pc thr sv dir
          ⟨es1 ++ (t, b) :: es2, mx, tS, tE, ts⟩).result.text =
        (stream_chat H jparse model pc thr sv dir
          ⟨es1 ++ es2, mx, tS, tE, ts⟩).result.text ∧
      (stream_chat H jparse model pc thr sv dir
          ⟨es1 ++ (t, b) :: es2, mx, tS, tE, ts⟩).raw_events =
        es1.map Prod.snd ++ b :: (procE es2).map Prod.snd) ∧
    (∀ (H : String → String) (jparse : String → Option Jobj) (model pc : String)
        (thr : Int) (sv : Bool) (dir : String) (input : StreamInput) (msg : String),
      input.midExn = some msg → hasDoneE input.events = false →
      (stream_chat H jparse model pc thr sv dir input).result.error = some msg ∧
      (stream_chat H jparse model pc thr sv dir input).result.ttc_ms =
        some ((input.tEnd - input.tStart) * 1000) ∧
      (stream_chat H jparse model pc thr sv dir input).raw_events =
        input.events.map Prod.snd) := by
  refine ⟨?_, ?_, ?_⟩
  · intro H jparse model pc thr sv dir input hmx
    rw [stream_chat_error]
    simp [hmx]
  · intro H jparse model pc thr sv dir tS tE ts t mx es1 es2 b h1 hb hjb
    have hproc : procE (es1 ++ (t, b) :: es2) = es1 ++ (t, b) :: procE es2 := by
      rw [procE_append_nodone _ _ h1]
      simp [procE, hb]
    have hproc2 : procE (es1 ++ es2) = es1 ++ procE es2 := procE_append_nodone _ _ h1
    have hbb : (pyStrip b == DONE) = false := by
      simp [hb]
    have hdone_eq : hasDoneE (es1 ++ (t, b) :: es2) = hasDoneE (es1 ++ es2) := by
      simp [hasDoneE, List.any_append, List.any_cons, hbb]
    refine ⟨?_, ?_, ?_, ?_⟩
    · rw [stream_chat_parse_errors, stream_chat_parse_errors, hproc, hproc2]
      simp only [List.map_append, List.map_cons]
      rw [verifierParseErrors_append, verifierParseErrors_append]
      have : verifierParseErrors jparse (b :: (procE es2).map Prod.snd) =
          1 + verifierParseErrors jparse ((procE es2).map Prod.snd) := by
        simp [verifierParseErrors, hb, hjb]
      omega
    · rw [stream_chat_error, stream_chat_error]
      simp only [hdone_eq]
    · rw [stream_chat_text, stream_chat_text, hproc, hproc2]
      simp only [List.map_append, List.map_cons]
      rw [loopTextR_append, loopTextR_append]
      have : loopTextR jparse (b :: (procE es2).map Prod.snd) =
          loopTextR jparse ((procE es2).map Prod.snd) := by
        simp [loopTextR, hb, hjb]
      rw [this]
    · rw [stream_chat_raw, hproc]
      simp
  · intro H jparse model pc thr sv dir input msg hmx hnd
    refine ⟨?_, stream_chat_ttc H jparse model pc thr sv dir input, ?_⟩
    · rw [stream_chat_error]
      simp [hmx, hnd]
    · rw [stream_chat_raw, procE_eq_self _ hnd]

/-- Witness for C7: a concrete bad frame between two good frames, and a
concrete mid-stream transport failure after one frame. -/
theorem c7_witness :
    hasDoneE [((1 : Int), "c")] = false ∧ pyStrip "bad" ≠ DONE ∧ jpC "bad" = none ∧
    (stream_chat idS jpC "m" "pc" 2000 false "d"
        ⟨[((1 : Int), "c")] ++ ((2 : Int), "bad") :: [((3 : Int), "c")], none, 0, 9, 0⟩).result.parse_errors =
      (stream_chat idS jpC "m" "pc" 2000 false "d"
        ⟨[((1 : Int), "c")] ++ [((3 : Int), "c")], none, 0, 9, 0⟩).result.parse_errors + 1 ∧
    (stream_chat idS jpC "m" "pc" 2000 false "d"
      { events := [(1, "c")], midExn := some "boom", tStart := 0, tEnd := 9,
        ts := 0 }).result.error = some "boom" :=
  ⟨by decide, by decide, by decide,
   ((c7_error_taxonomy.2.1 idS jpC "m" "pc" 2000 false "d" 0 9 0 2 none
      [((1 : Int), "c")] [((3 : Int), "c")] "bad" (by decide) (by decide) (by decide)).1),
   ((c7_error_taxonomy.2.2 idS jpC "m" "pc" 2000 false "d"
      { events := [(1, "c")], midExn := some "boom", tStart := 0, tEnd := 9, ts := 0 }
      "boom" rfl (by decide)).1)⟩

/-- C10: when saving is requested, at least one frame arrived and the stream
then ends in a transport failure, the session records the error and still
writes a receipt over the partial frame list, setting the receipt path. -/
theorem c10_receipt_on_partial_failure :
    ∀ (H : String → String) (jparse : String → Option Jobj) (model pc : String)
      (thr : Int) (dir : String) (input : StreamInput) (msg : String),
      input.midExn = some msg → input.events ≠ [] → hasDoneE input.events = false →
      (stream_chat H jparse model pc thr true dir input).result.error = some msg ∧
      (stream_chat H jparse model pc thr true dir input).raw_events =
        input.events.map Prod.snd ∧
      (stream_chat H jparse model pc thr true dir input).raw_events ≠ [] ∧
      (stream_chat H jparse model pc thr true dir input).result.receipt_path =
        some (write_receipt_path H dir model input.ts (input.events.map Prod.snd)) ∧
      (stream_chat H jparse model pc thr true dir input).receipt =
        some (write_receipt H model pc input.ts (input.events.map Prod.snd)) := by
  intro H jparse model pc thr dir input msg hmx hne hnd
  have hmap : (procE input.events).map Prod.snd = input.events.map Prod.snd := by
    rw [procE_eq_self _ hnd]
  have hnemap : (input.events.map Prod.snd).isEmpty = false := by
    simp [List.isEmpty_iff, hne]
  refine ⟨?_, ?_, ?_, ?_, ?_⟩
  · rw [stream_chat_error]
    simp [hmx, hnd]
  · rw [stream_chat_raw, hmap]
  · rw [stream_chat_raw, hmap]
    simp [hne]
  · rw [stream_chat_receipt_path, hmap]
    simp [hnemap]
  · rw [stream_chat_receipt, hmap]
    simp [hnemap]

/-- Witness for C10: one content frame followed by a transport failure, with
saving requested. -/
theorem c10_witness :
    ({ events := [(1, "c")], midExn := some "boom", tStart := 0, tEnd := 9,
        ts := 7 } : StreamInput).midExn = some "boom" ∧
    (stream_chat idS jpC "m" "pc" 2000 true "d"
      { events := [(1, "c")], midExn := some "boom", tStart := 0, tEnd := 9,
        ts := 7 }).result.error = some "boom" ∧
    (stream_chat idS jpC "m" "pc" 2000 true "d"
      { events := [(1, "c")], midExn := some "boom", tStart := 0, tEnd := 9,
        ts := 7 }).result.receipt_path =
      some (write_receipt_path idS "d" "m" 7 ["c"]) :=
  ⟨rfl,
   (c10_receipt_on_partial_failure idS jpC "m" "pc" 2000 "d"
     { events := [(1, "c")], midExn := some "boom", tStart := 0, tEnd := 9, ts := 7 }
     "boom" rfl (by decide) (by decide)).1,
   (c10_receipt_on_partial_failure idS jpC "m" "pc" 2000 "d"
     { events := [(1, "c")], midExn := some "boom", tStart := 0, tEnd := 9, ts := 7 }
     "boom" rfl (by decide) (by decide)).2.2.2.1⟩

/-- C4: under the fact that the sentinel text is not valid JSON, the primary
content reconstructed by the verifier over a raw frame list equals the
accumulated text produced by the stream consumer content-extraction rule over
the same payloads in the same order, and the text of a stream_chat session is
that same accumulation over its raw-event log. -/
theorem c4_content_reconstruction_equiv :
    ∀ (jparse : String → Option Jobj),
      (∀ s, pyStrip s = DONE → jparse s = none) →
      (∀ raw : List String, verifierContent jparse raw = consumerAccumText jparse raw) ∧
      (∀ (H : String → String) (model pc : String) (thr : Int) (sv : Bool)
        (dir : String) (input : StreamInput),
        (stream_chat H jparse model pc thr sv dir input).result.text =
          consumerAccumText jparse
            ((stream_chat H jparse model pc thr sv dir input).raw_events)) := by
  intro jparse hdone
  refine ⟨verifierContent_eq_consumerAccumText jparse hdone, ?_⟩
  intro H model pc thr sv dir input
  rw [stream_chat_text, stream_chat_raw, loopTextR_eq_consumerAccumText jparse hdone]

/-- Witness for C4 on the concrete parser jpC and concrete payload lists,
including a session with a bad frame and a sentinel. -/
theorem c4_witness :
    (∀ s, pyStrip s = DONE → jpC s = none) ∧
    verifierContent jpC ["c", "bad", "c"] = consumerAccumText jpC ["c", "bad", "c"] ∧
    (stream_chat idS jpC "m" "pc" 2000 false "d"
      { events := [(1, "c"), (2, "bad"), (3, "[DONE]"), (4, "c")], midExn := none,
        tStart := 0, tEnd := 9, ts := 0 }).result.text =
      consumerAccumText jpC
        ((stream_chat idS jpC "m" "pc" 2000 false "d"
          { events := [(1, "c"), (2, "bad"), (3, "[DONE]"), (4, "c")], midExn := none,
            tStart := 0, tEnd := 9, ts := 0 }).raw_events) :=
  ⟨jpC_done_none,
   (c4_content_reconstruction_equiv jpC jpC_done_none).1 ["c", "bad", "c"],
   (c4_content_reconstruction_equiv jpC jpC_done_none).2 idS "m" "pc" 2000 false "d"
     { events := [(1, "c"), (2, "bad"), (3, "[DONE]"), (4, "c")], midExn := none,
       tStart := 0, tEnd := 9, ts := 0 }⟩

lemma checkStatuses_verify (H : String → String) (jparse : String → Option Jobj)
    (d : ReceiptData) (rp : String) :
    checkStatuses (verify_receipt H jparse d rp) =
      [(eventsHashCheck H d).status, (payloadHashCheck d).status,
       (parseCheck jparse d).status, (contentCheck jparse d).status,
       (usageCheck jparse d).status] := by
  simp [checkStatuses, verify_receipt]

/-- C1: for every receipt whose stored events hash is present and matches the
digest of its raw-frame list, inserting the synthetic injected content frame
at the midpoint flips the events_hash check to FAIL, while the payload_hash
check returns the same status as on the unmodified receipt.  The digest is
modelled as an arbitrary injective function (the ideal-hash reading of the
collision resistance the property relies on). -/
theorem c1_tamper_flips_events_hash :
    ∀ (H : String → String), Function.Injective H →
    ∀ (jparse : String → Option Jobj) (d : ReceiptData) (rp rp2 : String),
      d.events_hash ≠ "" →
      d.events_hash = H (joinNl d.raw_events) →
      (checkStatuses (verify_receipt H jparse (tamper d) rp))[0]? = some FAIL ∧
      (checkStatuses (verify_receipt H jparse (tamper d) rp))[1]? =
        (checkStatuses (verify_receipt H jparse d rp2))[1]? := by
  intro H hinj jparse d rp rp2 hne heq
  have hfail : (eventsHashCheck H (tamper d)).status = FAIL := by
    have hcontra :
        H (joinNl (insertAt d.raw_events (d.raw_events.length / 2) fake_event)) ≠
          d.events_hash := by
      intro hh
      exact tamper_join_ne d.raw_events (hinj (hh.trans heq))
    unfold eventsHashCheck tamper
    dsimp only
    rw [if_neg hne, if_neg hcontra]
  constructor
  · rw [checkStatuses_verify]
    simp [hfail]
  · rw [checkStatuses_verify, checkStatuses_verify]
    rfl

/-- Concrete two-frame receipt whose stored events hash matches the identity
digest of its joined raw frames. -/
def d1 : ReceiptData :=
  { model := "m", events_hash := "a\nb", payload_hash := "", raw_events := ["a", "b"] }

/-- Witness for C1: identity digest (injective) and the concrete receipt d1. -/
theorem c1_witness :
    Function.Injective idS ∧
    d1.events_hash ≠ "" ∧
    d1.events_hash = idS (joinNl d1.raw_events) ∧
    (checkStatuses (verify_receipt idS jpNone (tamper d1) "p"))[0]? = some FAIL :=
  ⟨fun a b h => h, by decide, rfl,
   (c1_tamper_flips_events_hash idS (fun a b h => h) jpNone d1 "p" "p"
     (by decide) rfl).1⟩

lemma usageCheck_status (jparse : String → Option Jobj) (d : ReceiptData) :
    (usageCheck jparse d).status = PASS ∨ (usageCheck jparse d).status = SKIP := by
  unfold usageCheck
  dsimp only
  split
  · exact Or.inl rfl
  · exact Or.inr rfl

lemma isHex64_ne_empty (s : String) (h : isHex64 s = true) : s ≠ "" := by
  intro h0
  subst h0
  exact absurd h (by decide)

/-- Counterexample to C2 as stated: the generator happily writes a receipt
over the non-empty frame list `[x]`, whose single payload is neither the
sentinel nor valid JSON, and the verifier then reports FAIL checks (event
parsing and content reconstruction both fail). -/
theorem c2_counterexample :
    countFail (verify_receipt H64 jpNone
      (write_receipt H64 "m" "pc" 0 ["x"]).toData "p") ≠ 0 := by
  decide

/-- C2 as amended: for every non-empty list of raw frame payloads in which
every payload is either the sentinel or parses as JSON, whose reconstructed
content is non-empty, and for every request body, writing a receipt with the
generator and verifying it yields a report with zero FAIL checks (given that
the digest always produces a well-formed 64-character hex string, as the real
digest does). -/
theorem c2_round_trip_amended :
    ∀ (H : String → String) (jparse : String → Option Jobj) (model pc rp : String)
      (ts : Int) (raw : List String),
      (∀ s, isHex64 (H s) = true) →
      raw ≠ [] →
      (∀ e ∈ raw, pyStrip e = DONE ∨ (jparse e).isSome = true) →
      verifierContent jparse raw ≠ "" →
      countFail (verify_receipt H jparse (write_receipt H model pc ts raw).toData rp) = 0 := by
  intro H jparse model pc rp ts raw hhex hne hparse hcontent
  set d := (write_receipt H model pc ts raw).toData with hd
  have hdev : d.events_hash = H (joinNl raw) := rfl
  have hdpl : d.payload_hash = H pc := rfl
  have hdraw : d.raw_events = raw := rfl
  have hc1 : (eventsHashCheck H d).status = PASS := by
    unfold eventsHashCheck
    rw [hdev, hdraw, if_neg (isHex64_ne_empty _ (hhex _)), if_pos rfl]
  have hc2 : (payloadHashCheck d).status = PASS := by
    unfold payloadHashCheck
    rw [hdpl, if_neg (isHex64_ne_empty _ (hhex _)), if_pos (hhex _)]
  have hc3 : (parseCheck jparse d).status = PASS := by
    unfold parseCheck
    dsimp only
    rw [hdraw, verifierParseErrors_zero jparse raw hparse]
    simp
  have hc4 : (contentCheck jparse d).status = PASS := by
    unfold contentCheck
    dsimp only
    rw [hdraw]
    have hpos : 0 < (verifierContent jparse raw).length :=
      Nat.pos_of_ne_zero (fun h0 => hcontent ((string_length_eq_zero_iff _).mp h0))
    rw [if_pos hpos]
  have hc5 := usageCheck_status jparse d
  unfold countFail verify_receipt
  dsimp only
  rcases hc5 with h5 | h5 <;>
    simp [List.countP_cons, List.countP_nil, hc1, hc2, hc3, hc4, h5, PASS, FAIL, SKIP]

/-- Witness for the amended C2 on the digest H64, the parser jpC and the
one-frame list `[c]`. -/
theorem c2_amended_witness :
    (∀ s, isHex64 (H64 s) = true) ∧
    (["c"] ≠ ([] : List String)) ∧
    (∀ e ∈ ["c"], pyStrip e = DONE ∨ (jpC e).isSome = true) ∧
    verifierContent jpC ["c"] ≠ "" ∧
    countFail (verify_receipt H64 jpC (write_receipt H64 "m" "pc" 0 ["c"]).toData "p") = 0 :=
  ⟨fun _ => rfl, by decide, by decide, by decide,
   c2_round_trip_amended H64 jpC "m" "pc" "p" 0 ["c"]
     (fun _ => rfl) (by decide) (by decide) (by decide)⟩

/-- Counterexample to C9 as stated: on a session whose single frame carries
no usage block, the caller observes the integer count zero on both exposed
counters (the fields are plain integers defaulting to 0), not the null the
claim demands; the spec-view nullable counters are null on the same input. -/
theorem c9_counterexample :
    observed_prompt_tokens (stream_chat idS jpC "m" "pc" 2000 false "d"
      { events := [(1, "c")], midExn := none, tStart := 0, tEnd := 2, ts := 0 }) = some 0 ∧
    observed_completion_tokens (stream_chat idS jpC "m" "pc" 2000 false "d"
      { events := [(1, "c")], midExn := none, tStart := 0, tEnd := 2, ts := 0 }) = some 0 ∧
    specview_prompt_tokens jpC ["c"] = none ∧
    specview_completion_tokens jpC ["c"] = none ∧
    (some (0 : Int) ≠ (none : Option Int)) := by
  decide

/-- C9 as amended: the exposed token counts are plain integers defaulting to
zero, so for every session in which no processed frame carried a usage block
with a non-zero count, the caller observes the count zero on both counters
(an observed zero, not a null). -/
theorem c9_zero_not_null_amended :
    ∀ (H : String → String) (jparse : String → Option Jobj) (model pc : String)
      (thr : Int) (sv : Bool) (dir : String) (input : StreamInput),
      (∀ uv ∈ usageObs jparse ((procE input.events).map Prod.snd), uv.1 = 0 ∧ uv.2 = 0) →
      observed_prompt_tokens (stream_chat H jparse model pc thr sv dir input) = some 0 ∧
      observed_completion_tokens (stream_chat H jparse model pc thr sv dir input) = some 0 := by
  intro H jparse model pc thr sv dir input h
  constructor
  · unfold observed_prompt_tokens
    rw [stream_chat_prompt_tokens]
    unfold lastNZ
    have hz : ∀ x ∈ (usageObs jparse ((procE input.events).map Prod.snd)).map Prod.fst,
        x = 0 := by
      intro x hx
      obtain ⟨uv, huv, rfl⟩ := List.mem_map.mp hx
      exact (h uv huv).1
    rw [lastNZfrom_all_zero _ _ hz]
  · unfold observed_completion_tokens
    rw [stream_chat_completion_tokens]
    unfold lastNZ
    have hz : ∀ x ∈ (usageObs jparse ((procE input.events).map Prod.snd)).map Prod.snd,
        x = 0 := by
      intro x hx
      obtain ⟨uv, huv, rfl⟩ := List.mem_map.mp hx
      exact (h uv huv).2
    rw [lastNZfrom_all_zero _ _ hz]

/-- Concrete session input whose single frame carries an all-zero usage
block. -/
def zInput : StreamInput :=
  { events := [(1, "z")], midExn := none, tStart := 0, tEnd := 2, ts := 0 }

/-- Witness for the amended C9 on a session whose single frame carries an
all-zero usage block. -/
theorem c9_amended_witness :
    (∀ uv ∈ usageObs jpU0 ((procE zInput.events).map Prod.snd), uv.1 = 0 ∧ uv.2 = 0) ∧
    observed_prompt_tokens
      (stream_chat idS jpU0 "m" "pc" 2000 false "d" zInput) = some 0 :=
  ⟨by decide,
   (c9_zero_not_null_amended idS jpU0 "m" "pc" 2000 false "d" zInput (by decide)).1⟩

end AmbientSpec
